import Mathlib

/-!
Verification of the CAT-to-Parquet streaming extraction pipeline
(`CAT2PARQUET.py`).  The Python source is shallowly embedded: strings are
lists of characters, pandas dataframes become lists of rows, and the
PyArrow sink becomes an explicit state machine.  Each claim about the
program is stated and settled against these definitions.
-/

set_option maxRecDepth 10000

/-! ## Python string primitives -/

/-- Characters removed by Python `str.strip()` (ASCII whitespace). -/
def isPySpace (c : Char) : Bool :=
  c = ' ' || c = '\t' || c = '\n' || c = '\r' || c = '\x0b' || c = '\x0c'

/-- Python `s.strip()`: remove leading and trailing whitespace. -/
def pystrip (s : List Char) : List Char :=
  ((s.dropWhile isPySpace).reverse.dropWhile isPySpace).reverse

/-- Python slicing `line[a:b]` for non-negative bounds: out-of-range
indices clamp, an empty slice results when `b ≤ a`. -/
def pyslice (line : List Char) (a b : Nat) : List Char :=
  (line.drop a).take (b - a)

/-- Python `line.startswith(pref)`: the first `len(pref)` characters
equal `pref`. -/
def pyStartsWith (pref line : List Char) : Bool :=
  line.take pref.length == pref

/-- Accumulate a decimal digit string into a natural number. -/
def parseDigits (cs : List Char) : Nat :=
  cs.foldl (fun a c => a * 10 + (c.toNat - 48)) 0

/-- Sign handling of a Python numeric literal. -/
def parseSign : List Char → ℚ × List Char
  | '-' :: r => (-1, r)
  | '+' :: r => (1, r)
  | r => (1, r)

/-- Models `pd.to_numeric(..., errors="coerce")` on a single cell already
stripped of surrounding whitespace: an optional sign followed by decimal
digits with an optional fractional part parses to a rational; anything
else (including the empty string) coerces to the null marker `none`.
Exponent notation is not modelled; no cell of the claims uses it. -/
def parseNumeric (s : List Char) : Option ℚ :=
  let sr := parseSign s
  let ip := sr.2.takeWhile Char.isDigit
  let r2 := sr.2.dropWhile Char.isDigit
  match r2 with
  | [] => if ip.isEmpty then none else some (sr.1 * (parseDigits ip : ℚ))
  | '.' :: fr =>
    if fr.all Char.isDigit && (!ip.isEmpty || !fr.isEmpty) then
      some (sr.1 * ((parseDigits ip : ℚ) + (parseDigits fr : ℚ) / ((10 : ℚ) ^ fr.length)))
    else none
  | _ => none

/-! ## Table configuration registry (`get_table_config`) -/

/-- One table's positional metadata and transformation rules, the value
returned by `get_table_config`.  `drop_cols` is a Python set in the
source; only membership is ever used, so a list is an adequate model. -/
structure TableConfig where
  positions : List Nat
  columns : List String
  drop_cols : List String
  numeric_cols : List String
  centroid_cols : List String
  percent_cols : List String
deriving DecidableEq

def config11 : TableConfig :=
  { positions := [
      2,23,25,28,30,44,50,52,77,80,83,123,153,158,163,188,192,193,
      197,198,203,207,215,240,245,247,250,252,255,260,265,295,
      305,312,319,326,333,342,352,581,601,666]
    columns := [
      "tipo_reg","unused0","cd","cmc","cn","pc","unused1","cp","np",
      "cmc2","cm","nm","nem","cv","tv","nv","pnp","plp","snp","slp",
      "km","bl","unused2","td","dp","dm","cma","czc","cpo","cpa",
      "cpaj","npa","sup","sct","ssr","sbr","sc","xcen","ycen",
      "unused3","rc_bice","n_bice","srs"]
    drop_cols := ["unused0","unused1","unused2","unused3","rc_bice","n_bice"]
    numeric_cols := ["sup","sct","ssr","sbr","sc"]
    centroid_cols := ["xcen","ycen"]
    percent_cols := [] }

def config13 : TableConfig :=
  { positions := [
      2,23,25,28,30,44,48,50,52,77,80,83,123,153,158,163,188,192,
      193,197,198,203,215,240,295,299,300,307,312,409]
    columns := [
      "tipo_reg","UNUSED0","cd","cmc","cn","pc","cuc","UNUSED1","cp",
      "np","cmc2","cm","nm","nem","cv","tv","nv","pnp","plp","snp","slp",
      "km","UNUSED2","td","UNUSED3","ac","iacons","so","lf","UNUSED4","cucm"]
    drop_cols := ["UNUSED0","UNUSED1","UNUSED2","UNUSED3","UNUSED4","cucm","LineaCAT"]
    numeric_cols := []
    centroid_cols := []
    percent_cols := [] }

def config14 : TableConfig :=
  { positions := [
      2,23,25,28,30,44,48,50,54,58,62,64,67,70,73,74,78,82,83,90,
      97,104,109,111]
    columns := [
      "tipo_reg","UNUSED0","cd","cmc","UNUSED1","pc","noec","UNUSED2",
      "nobf","cuc","bl","es","pt","pu","cd2","tr","ar","aec","ili",
      "stl","spt","sil","tip","UNUSED3","modl"]
    drop_cols := ["UNUSED0","UNUSED1","UNUSED2","UNUSED3","modl","LineaCAT"]
    numeric_cols := []
    centroid_cols := []
    percent_cols := [] }

def config15 : TableConfig :=
  { positions := [
      2,23,25,28,30,44,48,49,50,58,73,92,94,119,122,125,165,195,
      200,205,230,234,235,239,240,245,249,251,254,257,282,287,289,
      292,294,297,302,307,337,367,371,375,427,428,441,451,461]
    columns := [
      "tipo_reg","UNUSED0","cd","cmc","cn","pc","car","cc1","cc2",
      "nfbi","iia","nfv","cp","np","cmc2","cm","nm","nem","cv","tv",
      "nv","pnp","plp","snp","slp","km","bl","es","pt","pu","td","dp",
      "dm","cma","czc","cpo","cpa","cpaj","npa","UNUSED1","noe","ant",
      "UNUSED2","grbice/coduso","UNUSED3","sfc","sfs","cpt"]
    drop_cols := ["UNUSED0","UNUSED1","UNUSED2","UNUSED3","cpt","LineaCAT"]
    numeric_cols := []
    centroid_cols := []
    percent_cols := [] }

def config16 : TableConfig :=
  { positions := [
      2,23,25,28,30,44,48,50,54,58,64,113,117,123,172,176,182,231,235,
      241,290,294,300,349,353,359,408,412,418,467,471,477,526,530,536,
      585,589,595,644,648,654,703,707,713,762,766,772,821,825,831,880,
      884,890,939]
    columns := [
      "tipo_reg","UNUSED0","cd","cmc","UNUSED1","pc","noev","ccsp","nreg",
      "nc1","pr1","UNUSED3","nc2","pr2","UNUSED4","nc3","pr3","UNUSED5",
      "nc4","pr4","UNUSED6","nc5","pr5","UNUSED7","nc6","pr6","UNUSED8",
      "nc7","pr7","UNUSED9","nc8","pr8","UNUSED10","nc9","pr9","UNUSED11",
      "nc10","pr10","UNUSED12","nc11","pr11","UNUSED13","nc12","pr12","UNUSED14",
      "nc13","pr13","UNUSED15","nc14","pr14","UNUSED16","nc15","pr15","UNUSED17"]
    drop_cols := [
      "UNUSED0","UNUSED1","UNUSED2","UNUSED3","UNUSED4","UNUSED5","UNUSED6",
      "UNUSED7","UNUSED8","UNUSED9","UNUSED10","UNUSED11","UNUSED12",
      "UNUSED13","UNUSED14","UNUSED15","UNUSED16","UNUSED17","LineaCAT"]
    numeric_cols := []
    centroid_cols := []
    percent_cols := [
      "pr1","pr2","pr3","pr4","pr5","pr6","pr7","pr8","pr9","pr10",
      "pr11","pr12","pr13","pr14","pr15"] }

def config17 : TableConfig :=
  { positions := [
      2,23,25,28,30,44,48,50,54,55,65,67,107,109,126]
    columns := [
      "tipo_reg","UNUSED0","cd","cmc","cn","pc","cspr","UNUSED1","nobf",
      "tspr","ssp","ccc","dcc","ip","UNUSED2","modl"]
    drop_cols := ["UNUSED0","UNUSED1","UNUSED2","modl","LineaCAT"]
    numeric_cols := []
    centroid_cols := []
    percent_cols := [] }

/-- The supported record-type codes (`SUPPORTED_TABLES`). -/
def SUPPORTED_TABLES : List String := ["11", "13", "14", "15", "16", "17"]

/-- Default chunk size (`CHUNK_SIZE = 1_000_000`). -/
def CHUNK_SIZE : Nat := 1000000

/-- `get_table_config`: positional metadata per table type; the
`NotImplementedError` raised for unknown codes is modelled by `none`. -/
def get_table_config (table_type : String) : Option TableConfig :=
  if table_type = "11" then some config11
  else if table_type = "13" then some config13
  else if table_type = "14" then some config14
  else if table_type = "15" then some config15
  else if table_type = "16" then some config16
  else if table_type = "17" then some config17
  else none

/-! ## Line decoder (`split_fixed_width`) -/

/-- The list `values` computed inside `split_fixed_width`: for each `i`
below `len(positions_full) - 1`, the slice
`line[positions_full[i]:positions_full[i+1]]` stripped, with
`positions_full = [0] + positions + [len(line)]`. -/
def spanValues (line : List Char) (positions : List Nat) : List (List Char) :=
  (List.range ((0 :: positions ++ [line.length]).length - 1)).map fun i =>
    pystrip (pyslice line ((0 :: positions ++ [line.length]).getD i 0)
      ((0 :: positions ++ [line.length]).getD (i + 1) 0))

/-- `split_fixed_width`: zip the column names against the stripped span
slices.  Python's `dict(zip(columns, values))` is modelled by the
association list `columns.zip values`; `zip` truncates to the shorter
list exactly as in Python. -/
def split_fixed_width (line : List Char) (positions : List Nat)
    (columns : List String) : List (String × List Char) :=
  columns.zip (spanValues line positions)

/-! ## Chunked reader (`read_cat_in_chunks`) -/

/-- Worker for `chunksOf`, structurally recursive on a fuel bound (any
upper bound on the list length; with a positive chunk size the fuel is
never exhausted before the list empties). -/
def chunksOfAux (n : Nat) : Nat → List α → List (List α)
  | _, [] => []
  | 0, _ :: _ => []
  | fuel + 1, x :: xs => (x :: xs).take n :: chunksOfAux n fuel ((x :: xs).drop n)

/-- The chunking performed by `read_cat_in_chunks`: lines are grouped
into buffers of `n` lines, with a final partial buffer.  The reader is
only ever run with the positive constant `CHUNK_SIZE`; chunk size `0`
(which the source cannot produce) yields no chunks. -/
def chunksOf (n : Nat) (l : List α) : List (List α) :=
  if n = 0 then [] else chunksOfAux n l.length l

/-! ## Transform stage (`process_folder`, lines 280-297) -/

/-- A cell of the in-memory dataframe after the transform stage: still a
string, coerced to a 64-bit number (modelled exactly by a rational,
since every arithmetic fact claimed is exactly representable), or the
null marker (`NaN`/`pd.NA`, which the columnar sink stores as null). -/
inductive CellVal where
  | str (s : List Char)
  | num (q : ℚ)
  | null
deriving DecidableEq

/-- `pd.to_numeric(col, errors="coerce")` on one cell: strings parse or
coerce to null, numbers and nulls pass through. -/
def toNumericCell : CellVal → CellVal
  | CellVal.str s => (parseNumeric s).elim CellVal.null CellVal.num
  | CellVal.num q => CellVal.num q
  | CellVal.null => CellVal.null

/-- Multiplication of a numeric column by a scale factor; `NaN * f` stays
`NaN`, modelled as null staying null. -/
def scaleCell (f : ℚ) : CellVal → CellVal
  | CellVal.num q => CellVal.num (q * f)
  | c => c

/-- The three numeric-casting loops of `process_folder` (lines 283-290)
applied to one cell of column `name`: plain `to_numeric` for
`numeric_cols`, `to_numeric` then `* 0.01` for `centroid_cols`,
`to_numeric` then `* 0.001` for `percent_cols`, in source order. -/
def transformCell (cfg : TableConfig) (name : String) (v : List Char) : CellVal :=
  let c0 := CellVal.str v
  let c1 := if cfg.numeric_cols.contains name then toNumericCell c0 else c0
  let c2 := if cfg.centroid_cols.contains name then scaleCell (1/100) (toNumericCell c1) else c1
  let c3 := if cfg.percent_cols.contains name then scaleCell (1/1000) (toNumericCell c2) else c2
  c3

/-- Pandas column dtypes occurring in the record dataframe (the
names double as the Arrow field types of `pa.Table.from_pandas`:
`int64` maps to Arrow int64, `float64` to Arrow double, `object` over
`str` cells to Arrow string). -/
inductive DType where
  | object
  | int64
  | float64
  | string
deriving DecidableEq

/-- A cell that Python's integer parse accepts (an optional sign
followed by one or more digits): `pd.to_numeric` returns an `int64`
column exactly when every cell of the column parses this way. -/
def isIntLiteral (s : List Char) : Bool :=
  match s with
  | '-' :: r => !r.isEmpty && r.all Char.isDigit
  | '+' :: r => !r.isEmpty && r.all Char.isDigit
  | r => !r.isEmpty && r.all Char.isDigit

/-- The decoded records of one chunk (`records`, lines 271-278): the
lines that pass the record-type prefix filter, each decoded by
`split_fixed_width`. -/
def decodeChunk (cfg : TableConfig) (table_type : String)
    (lines : List (List Char)) : List (List (String × List Char)) :=
  ((lines.filter fun l => pyStartsWith table_type.data l).map
    fun l => split_fixed_width l cfg.positions cfg.columns)

/-- The raw string cells of column `name` across a chunk's decoded
records. -/
def columnCells (recs : List (List (String × List Char))) (name : String) :
    List (List Char) :=
  recs.filterMap fun r => r.lookup name

/-- Dtype of `pd.to_numeric(col, errors="coerce")` for a column of raw
string cells: `int64` when every cell of the chunk parses as an integer
literal, `float64` otherwise (a fractional, empty or unparseable cell,
which coerces to NaN, forces `float64`).  Data- and chunk-dependent. -/
def toNumericDtype (cells : List (List Char)) : DType :=
  if cells.all isIntLiteral then DType.int64 else DType.float64

/-- Dtype of column `name` of the chunk's dataframe
(`pd.DataFrame.from_records(records)`) after the numeric-casting loops:
plain numeric columns get whatever `to_numeric` infers from this
chunk's cells (`int64` or `float64`); centroid and percent columns are
multiplied by a Python float (`0.01` / `0.001`), which always promotes
to `float64`; all other columns keep the `object` dtype that
`from_records` gives dicts of Python `str` values.  No column ever has
the pandas `string` dtype (only the raw one-column `LineaCAT` frame
does). -/
def columnDtype (cfg : TableConfig) (recs : List (List (String × List Char)))
    (name : String) : DType :=
  if cfg.numeric_cols.contains name then toNumericDtype (columnCells recs name)
  else if cfg.centroid_cols.contains name || cfg.percent_cols.contains name then
    DType.float64
  else
    DType.object

/-- The whitespace-normalization `apply` of lines 294-297: a column is
re-stripped with empty strings replaced by `pd.NA` only when its dtype
compares equal to `"string"`; all other columns pass through unchanged. -/
def normalizeCell (dt : DType) (c : CellVal) : CellVal :=
  if dt = DType.string then
    match c with
    | CellVal.str s => if pystrip s = [] then CellVal.null else CellVal.str (pystrip s)
    | c => c
  else c

/-- The whole per-row transform of one decoded record of a chunk whose
decoded records are `recs`, in source order: numeric casting and
scaling (283-290), column drop (292), then the dtype-guarded
whitespace normalization (294-297). -/
def transformRow (cfg : TableConfig) (recs : List (List (String × List Char)))
    (rec : List (String × List Char)) : List (String × CellVal) :=
  ((rec.map fun p => (p.1, transformCell cfg p.1 p.2)).filter
      fun p => !cfg.drop_cols.contains p.1).map
    fun p => (p.1, normalizeCell (columnDtype cfg recs p.1) p.2)

/-- One chunk iteration of `process_folder` (lines 266-297): filter the
chunk's lines by the record-type prefix, decode each survivor with
`split_fixed_width`, and transform each decoded record.  The resulting
list of rows is the content of the typed batch handed to the sink (an
empty result produces no batch at all, which contributes no rows). -/
def processChunk (cfg : TableConfig) (table_type : String)
    (lines : List (List Char)) : List (List (String × CellVal)) :=
  (decodeChunk cfg table_type lines).map
    (transformRow cfg (decodeChunk cfg table_type lines))

/-- All rows a single input file contributes, reading it with chunk size
`n`: the concatenation, in order, of the rows of each chunk's batch. -/
def pipelineRows (cfg : TableConfig) (table_type : String) (n : Nat)
    (lines : List (List Char)) : List (List (String × CellVal)) :=
  ((chunksOf n lines).map (processChunk cfg table_type)).flatten

/-! ## Schema unifier and sink (`process_folder`, lines 299-315) -/

/-- A typed batch as seen by the sink: its Arrow schema (named, typed
columns in order) and its rows. -/
structure ArrowBatch where
  schema : List (String × DType)
  rows : List (List CellVal)
deriving DecidableEq

/-- `pyarrow.Table.cast(target)`: succeeds on a batch whose fields match
the target schema (the only casts the pipeline performs, since every
chunk of a run produces the same column names and dtypes); a batch whose
fields do not match raises, modelled as `none`. -/
def castTable (b : ArrowBatch) (s : List (String × DType)) : Option ArrowBatch :=
  if b.schema = s then some b else none

/-- State of the writer across `process_folder`'s loop: the schema fixed
by the first batch (`arrow_schema`), the batches written, how many times
`close()` ran, and whether an uncaught exception aborted the run. -/
structure SinkState where
  schemaFixed : Option (List (String × DType)) := none
  written : List ArrowBatch := []
  closed : Nat := 0
  aborted : Bool := false
deriving DecidableEq

/-- The batch loop of `process_folder` (lines 299-315): the first batch
fixes `arrow_schema` and opens the writer; every batch is cast to the
fixed schema and written; a failing cast raises, which propagates out of
the function, skipping the `close()` call.  After the last batch,
`close()` runs once if the writer was opened. -/
def sinkGo (st : SinkState) : List ArrowBatch → SinkState
  | [] =>
    if st.schemaFixed.isSome then { st with closed := st.closed + 1 } else st
  | b :: bs =>
    match st.schemaFixed with
    | none =>
      sinkGo { st with schemaFixed := some b.schema, written := st.written ++ [b] } bs
    | some s =>
      match castTable b s with
      | some b2 => sinkGo { st with written := st.written ++ [b2] } bs
      | none => { st with aborted := true }

/-- Run the sink portion of `process_folder` on the sequence of
non-empty typed batches the chunk loop produces. -/
def runSink (batches : List ArrowBatch) : SinkState :=
  sinkGo {} batches

/-- A one-column demonstration batch used by the sink theorems. -/
def demoBatchA : ArrowBatch := ⟨[("a", DType.object)], []⟩

/-- A demonstration batch whose schema differs from `demoBatchA`. -/
def demoBatchB : ArrowBatch := ⟨[("b", DType.object)], []⟩

/-- The typed batch one non-empty chunk hands to the sink
(`pa.Table.from_pandas(df, preserve_index=False)`, line 299): the
schema lists the undropped columns in dataframe order with the dtypes
this chunk's data produced, and the rows are the transformed records. -/
def chunkBatch (cfg : TableConfig) (table_type : String)
    (lines : List (List Char)) : ArrowBatch :=
  { schema := (cfg.columns.filter fun c => !cfg.drop_cols.contains c).map
      fun c => (c, columnDtype cfg (decodeChunk cfg table_type lines) c)
    rows := (processChunk cfg table_type lines).map fun r => r.map Prod.snd }

/-- One file's pass through `process_folder`: read in chunks of size
`n`, skip chunks with no matching line, turn each remaining chunk into
a typed batch, and feed the batches to the schema-fixing sink. -/
def processFolderSink (cfg : TableConfig) (table_type : String) (n : Nat)
    (lines : List (List Char)) : SinkState :=
  runSink (((chunksOf n lines).filter
      fun ch => !(decodeChunk cfg table_type ch).isEmpty).map
    (chunkBatch cfg table_type))

/-- A table-11 line whose `sup` field (characters 305-312) is the
integer literal "123" and whose other numeric fields are empty. -/
def demoLineInt : List Char := "11".data ++ List.replicate 303 ' ' ++ "123".data

/-- A table-11 line whose `sup` field is the fractional literal
"45.7". -/
def demoLineFrac : List Char := "11".data ++ List.replicate 303 ' ' ++ "45.7".data

/-! ## Helper lemmas -/

/-- Any configuration returned by the registry is one of the six
hand-written tables. -/
lemma get_table_config_cases (t : String) (cfg : TableConfig)
    (h : get_table_config t = some cfg) :
    (t = "11" ∧ cfg = config11) ∨ (t = "13" ∧ cfg = config13) ∨
      (t = "14" ∧ cfg = config14) ∨ (t = "15" ∧ cfg = config15) ∨
      (t = "16" ∧ cfg = config16) ∨ (t = "17" ∧ cfg = config17) := by
  by_cases h11 : t = "11"
  · subst h11; simp [get_table_config] at h; exact Or.inl ⟨rfl, h.symm⟩
  by_cases h13 : t = "13"
  · subst h13; simp [get_table_config] at h; exact Or.inr (Or.inl ⟨rfl, h.symm⟩)
  by_cases h14 : t = "14"
  · subst h14; simp [get_table_config] at h
    exact Or.inr (Or.inr (Or.inl ⟨rfl, h.symm⟩))
  by_cases h15 : t = "15"
  · subst h15; simp [get_table_config] at h
    exact Or.inr (Or.inr (Or.inr (Or.inl ⟨rfl, h.symm⟩)))
  by_cases h16 : t = "16"
  · subst h16; simp [get_table_config] at h
    exact Or.inr (Or.inr (Or.inr (Or.inr (Or.inl ⟨rfl, h.symm⟩))))
  by_cases h17 : t = "17"
  · subst h17; simp [get_table_config] at h
    exact Or.inr (Or.inr (Or.inr (Or.inr (Or.inr ⟨rfl, h.symm⟩))))
  · simp [get_table_config, h11, h13, h14, h15, h16, h17] at h

lemma getElem?_zip (l1 : List α) (l2 : List β) (i : Nat) :
    (l1.zip l2)[i]? = (l1[i]?).bind fun a => (l2[i]?).map fun b => (a, b) := by
  induction l1 generalizing l2 i with
  | nil => simp
  | cons a l1 ih =>
    cases l2 with
    | nil => simp
    | cons b l2 =>
      cases i with
      | zero => simp
      | succ i => simpa using ih l2 i

lemma spanValues_length (line : List Char) (positions : List Nat) :
    (spanValues line positions).length = positions.length + 1 := by
  simp [spanValues]

lemma spanValues_getElem? (line : List Char) (positions : List Nat) (i : Nat)
    (hi : i < positions.length + 1) :
    (spanValues line positions)[i]? =
      some (pystrip (pyslice line ((0 :: positions ++ [line.length]).getD i 0)
        ((0 :: positions ++ [line.length]).getD (i + 1) 0))) := by
  unfold spanValues
  rw [List.getElem?_map, List.getElem?_range (by simpa using hi)]
  rfl

/-- The indexed description of one decoded field, shared by the offset
and truncation claims. -/
lemma split_fixed_width_getElem? (line : List Char) (positions : List Nat)
    (columns : List String) (i : Nat) (hi1 : i < columns.length)
    (hi2 : i < positions.length + 1) :
    (split_fixed_width line positions columns)[i]? =
      some (columns.getD i "",
        pystrip (pyslice line ((0 :: positions ++ [line.length]).getD i 0)
          ((0 :: positions ++ [line.length]).getD (i + 1) 0))) := by
  unfold split_fixed_width
  rw [getElem?_zip, spanValues_getElem? line positions i hi2,
    List.getElem?_eq_getElem hi1]
  simp [List.getD_eq_getElem?_getD, List.getElem?_eq_getElem hi1]

lemma castTable_eq (b : ArrowBatch) (s : List (String × DType)) (b2 : ArrowBatch)
    (h : castTable b s = some b2) : b2.schema = s ∧ b2 = b := by
  unfold castTable at h
  split at h
  · cases h
    constructor
    · assumption
    · rfl
  · cases h

lemma sinkGo_nil_schemaFixed (st : SinkState) :
    (sinkGo st []).schemaFixed = st.schemaFixed := by
  unfold sinkGo; split <;> rfl

lemma sinkGo_nil_written (st : SinkState) :
    (sinkGo st []).written = st.written := by
  unfold sinkGo; split <;> rfl

lemma sinkGo_written_conform (bs : List ArrowBatch) (st : SinkState)
    (hinv : ∀ s, st.schemaFixed = some s → ∀ b ∈ st.written, b.schema = s)
    (hempty : st.schemaFixed = none → st.written = []) :
    ∀ s, (sinkGo st bs).schemaFixed = some s →
      ∀ b ∈ (sinkGo st bs).written, b.schema = s := by
  induction bs generalizing st with
  | nil =>
    intro s hs b hb
    rw [sinkGo_nil_schemaFixed] at hs
    rw [sinkGo_nil_written] at hb
    exact hinv s hs b hb
  | cons b bs ih =>
    cases hsf : st.schemaFixed with
    | none =>
      have hw := hempty hsf
      simp only [sinkGo, hsf]
      apply ih
      · intro s hs bb hbb
        injection hs with hs
        subst hs
        rw [hw] at hbb
        simp only [List.nil_append, List.mem_singleton] at hbb
        subst hbb
        rfl
      · intro hs
        exact absurd hs (by simp)
    | some s0 =>
      simp only [sinkGo, hsf]
      cases hc : castTable b s0 with
      | some b2 =>
        simp only [hc]
        apply ih
        · intro s hs bb hbb
          injection hs with hs
          subst hs
          simp only [List.mem_append, List.mem_singleton] at hbb
          rcases hbb with hbb | rfl
          · exact hinv s0 hsf bb hbb
          · exact (castTable_eq b s0 bb hc).1
        · intro hs
          exact absurd hs (by simp)
      | none =>
        intro s hs bb hbb
        simp only [hc] at hs hbb
        injection hs with hs
        subst hs
        exact hinv s0 hsf bb hbb

lemma sinkGo_abort_of_bad (bs : List ArrowBatch) (st : SinkState)
    (s : List (String × DType)) (hs : st.schemaFixed = some s)
    (hbad : ∃ b ∈ bs, b.schema ≠ s) :
    (sinkGo st bs).aborted = true := by
  induction bs generalizing st with
  | nil => simp at hbad
  | cons b bs ih =>
    simp only [sinkGo, hs]
    cases hc : castTable b s with
    | none => simp [hc]
    | some b2 =>
      simp only [hc]
      have hbs : b.schema = s := by
        unfold castTable at hc
        split at hc
        · assumption
        · cases hc
      apply ih
      · rfl
      · rcases hbad with ⟨bb, hmem, hne⟩
        rcases List.mem_cons.mp hmem with rfl | hmem2
        · exact absurd hbs hne
        · exact ⟨bb, hmem2, hne⟩

lemma sinkGo_closed (bs : List ArrowBatch) (st : SinkState)
    (hc : st.closed = 0) (ha : st.aborted = false) :
    ((sinkGo st bs).aborted = false →
      (sinkGo st bs).closed = if (sinkGo st bs).schemaFixed.isSome then 1 else 0) ∧
    ((sinkGo st bs).aborted = true → (sinkGo st bs).closed = 0) := by
  induction bs generalizing st with
  | nil =>
    by_cases hx : st.schemaFixed.isSome
    · simp [sinkGo, hx, hc, ha]
    · simp [sinkGo, hx, hc, ha]
  | cons b bs ih =>
    cases hsf : st.schemaFixed with
    | none =>
      simp only [sinkGo, hsf]
      exact ih _ hc ha
    | some s =>
      cases hct : castTable b s with
      | some b2 =>
        simp only [sinkGo, hsf, hct]
        exact ih _ hc ha
      | none =>
        simp only [sinkGo, hsf, hct]
        constructor
        · intro hab; simp at hab
        · intro _; simpa using hc

lemma chunksOfAux_flatten (n fuel : Nat) (l : List α) (hf : l.length ≤ fuel) :
    (chunksOfAux (n + 1) fuel l).flatten = l := by
  induction fuel generalizing l with
  | zero =>
    cases l with
    | nil => rfl
    | cons x xs => simp at hf
  | succ fuel ih =>
    cases l with
    | nil => rfl
    | cons x xs =>
      have hf2 : ((x :: xs).drop (n + 1)).length ≤ fuel := by
        simp only [List.length_drop, List.length_cons]
        simp only [List.length_cons] at hf
        omega
      simp only [chunksOfAux, List.flatten_cons]
      rw [ih _ hf2, List.take_append_drop]

lemma chunksOf_flatten (n : Nat) (l : List α) :
    (chunksOf (n + 1) l).flatten = l := by
  unfold chunksOf
  rw [if_neg (Nat.succ_ne_zero n)]
  exact chunksOfAux_flatten n l.length l (le_refl _)

/-- No dataframe column of the pipeline ever has the pandas `string`
dtype, whatever the chunk's data. -/
lemma columnDtype_ne_string (cfg : TableConfig)
    (recs : List (List (String × List Char))) (name : String) :
    columnDtype cfg recs name ≠ DType.string := by
  unfold columnDtype toNumericDtype
  split
  · split
    · decide
    · decide
  · split
    · decide
    · decide

lemma normalizeCell_of_ne (dt : DType) (c : CellVal) (h : dt ≠ DType.string) :
    normalizeCell dt c = c := by
  unfold normalizeCell
  rw [if_neg h]

/-- Because the `"string"`-dtype guard never fires, a transformed row
does not depend on the rest of its chunk: the normalization pass is the
identity. -/
lemma transformRow_simple (cfg : TableConfig)
    (recs : List (List (String × List Char))) (rec : List (String × List Char)) :
    transformRow cfg recs rec
      = (rec.map fun p => (p.1, transformCell cfg p.1 p.2)).filter
          fun p => !cfg.drop_cols.contains p.1 := by
  unfold transformRow
  have hfun : (fun p : String × CellVal =>
        (p.1, normalizeCell (columnDtype cfg recs p.1) p.2))
      = fun p => (p.1, p.2) := by
    funext p
    rw [normalizeCell_of_ne _ _ (columnDtype_ne_string cfg recs p.1)]
  rw [hfun]
  simp

/-- Mapping the transform over a chunk's records does not depend on the
chunk passed for dtype inference (the dtype only feeds the dead
normalization guard). -/
lemma map_transformRow_congr (cfg : TableConfig)
    (R1 R2 recs : List (List (String × List Char))) :
    recs.map (transformRow cfg R1) = recs.map (transformRow cfg R2) := by
  apply List.map_congr_left
  intro a _
  rw [transformRow_simple, transformRow_simple]

lemma processChunk_append (cfg : TableConfig) (t : String)
    (l1 l2 : List (List Char)) :
    processChunk cfg t (l1 ++ l2) = processChunk cfg t l1 ++ processChunk cfg t l2 := by
  unfold processChunk decodeChunk
  simp only [List.filter_append, List.map_append]
  congr 1
  · apply map_transformRow_congr
  · apply map_transformRow_congr

lemma flatten_map_processChunk (cfg : TableConfig) (t : String)
    (L : List (List (List Char))) :
    (L.map (processChunk cfg t)).flatten = processChunk cfg t L.flatten := by
  induction L with
  | nil => simp [processChunk, decodeChunk]
  | cons c L ih => simp [processChunk_append, ih]

/-! ## Claim theorems -/

/-- Claim C1, counterexample: table "16" has 54 field names but
54 offsets and hence 55 spans, and `get_table_config` nevertheless
returns its layout without any failure, so the claimed
registry-construction-time check does not exist. -/
theorem C1_counterexample :
    ((get_table_config "16").all fun c =>
      c.columns.length == c.positions.length + 1) = false ∧
    (get_table_config "16").isSome = true := by decide

/-- Claim C1 as amended: for tables "11", "13", "14", "15" and "17" the
number of field names equals the number of spans
(`len(field_end_offsets) + 1`), but table "16" has 54 names against 55
spans, and `get_table_config` performs no count validation at all: it
returns the mismatched layout without error. -/
theorem C1_theorem :
    (["11", "13", "14", "15", "17"].all fun t =>
      (get_table_config t).all fun c =>
        c.columns.length == c.positions.length + 1) = true ∧
    ((get_table_config "16").all fun c =>
      (c.columns.length == 54) && (c.positions.length + 1 == 55)) = true ∧
    (get_table_config "16").isSome = true := by decide

/-- Claim C2 (the code contradicts it): for a table-11 line whose `cd`
field consists only of whitespace, the transform stage leaves the cell
as the empty string, not null, in the batch handed to the sink.  The
normalization step only fires for columns of pandas dtype `"string"`,
but `DataFrame.from_records` of the decoded dicts yields `object`-dtype
columns, so the replacement of empty strings by `pd.NA` never runs. -/
theorem C2_theorem :
    ((processChunk config11 "11" ["11".data ++ List.replicate 30 ' ']).map
      fun r => r.lookup "cd") = [some (CellVal.str [])] ∧
    columnDtype config11
      (decodeChunk config11 "11" ["11".data ++ List.replicate 30 ' ']) "cd"
      = DType.object ∧
    (normalizeCell DType.object (CellVal.str []) = CellVal.str []) := by
  decide

/-- Claim C3, counterexample: the drop set of table "13" contains
"LineaCAT", which is not one of that table's field names (the same holds
for tables "14"-"17", and table "16" additionally lists "UNUSED2"). -/
theorem C3_counterexample :
    (get_table_config "13").isSome = true ∧
    ((get_table_config "13").all fun c =>
      c.drop_cols.all fun d => c.columns.contains d) = false := by decide

/-- Claim C3 as amended: every key of the plain-numeric, centi-unit and
milli-unit scaled-field sets appears in its layout's field names; every
name in a drop set appears in its layout's field names except
"LineaCAT" (present in the drop sets of tables "13"-"17") and "UNUSED2"
(present in the drop set of table "16"), which are not field names of
their layouts. -/
theorem C3_theorem :
    (SUPPORTED_TABLES.all fun t => (get_table_config t).all fun c =>
      (c.numeric_cols ++ c.centroid_cols ++ c.percent_cols).all fun k =>
        c.columns.contains k) = true ∧
    (SUPPORTED_TABLES.all fun t => (get_table_config t).all fun c =>
      c.drop_cols.all fun d =>
        c.columns.contains d || (d == "LineaCAT") || (d == "UNUSED2")) = true ∧
    (["13", "14", "15", "16", "17"].all fun t => (get_table_config t).all fun c =>
      c.drop_cols.contains "LineaCAT" && !c.columns.contains "LineaCAT") = true ∧
    ((get_table_config "16").all fun c =>
      c.drop_cols.contains "UNUSED2" && !c.columns.contains "UNUSED2") = true ∧
    (["11", "13", "14", "15", "17"].all fun t => (get_table_config t).all fun c =>
      c.drop_cols.all fun d => c.columns.contains d || (d == "LineaCAT")) = true := by
  decide

/-- Claim C5: once the first batch fixes the output schema, every batch
written to the sink has exactly that schema (same column names, order
and types); and a later batch whose fields cannot be cast to the fixed
schema aborts the run instead of being written. -/
theorem C5_theorem (batches : List ArrowBatch) (b0 : ArrowBatch)
    (rest : List ArrowBatch) (hb : batches = b0 :: rest) :
    (∀ s, (runSink batches).schemaFixed = some s →
      ∀ b ∈ (runSink batches).written, b.schema = s) ∧
    ((∃ b ∈ rest, b.schema ≠ b0.schema) → (runSink batches).aborted = true) := by
  subst hb
  constructor
  · exact sinkGo_written_conform (b0 :: rest) {}
      (by intro s hs b hb; cases hb) (fun _ => rfl)
  · intro hbad
    show (sinkGo {} (b0 :: rest)).aborted = true
    have hstep : sinkGo {} (b0 :: rest)
        = sinkGo { schemaFixed := some b0.schema, written := [b0] } rest := rfl
    rw [hstep]
    exact sinkGo_abort_of_bad rest _ b0.schema rfl hbad

/-- Witness for C5: a second batch with a different column set makes the
run abort. -/
theorem C5_witness : (runSink [demoBatchA, demoBatchB]).aborted = true :=
  (C5_theorem [demoBatchA, demoBatchB] demoBatchA [demoBatchB] rfl).2
    ⟨demoBatchB, by decide, by decide⟩

/-- Claim C6, counterexample: a table-11 file of two matching lines
whose `sup` cells are "123" and then "45.7".  At chunk size 1 the first
batch's `sup` column is all integer literals, so `pd.to_numeric` gives
`int64` and the writer's schema is fixed at int64; the second batch is
`float64` with a fractional value, its cast to the fixed schema fails,
and the run aborts after writing one row with the writer left open.  As
a single chunk, the same file processes to one two-row `float64` batch
and the run completes and closes — a different final outcome, so the
output is not chunk-size independent. -/
theorem C6_counterexample :
    (processFolderSink config11 "11" 1 [demoLineInt, demoLineFrac]).aborted
      = true ∧
    (processFolderSink config11 "11" 1 [demoLineInt, demoLineFrac]).closed = 0 ∧
    ((processFolderSink config11 "11" 1 [demoLineInt, demoLineFrac]).written.map
      fun b => b.rows.length) = [1] ∧
    (processFolderSink config11 "11" 2 [demoLineInt, demoLineFrac]).aborted
      = false ∧
    (processFolderSink config11 "11" 2 [demoLineInt, demoLineFrac]).closed = 1 ∧
    ((processFolderSink config11 "11" 2 [demoLineInt, demoLineFrac]).written.map
      fun b => b.rows.length) = [2] := by
  decide

/-- Claim C6 as amended: for every file and record-type filter, any
positive chunk size yields the same concatenated sequence of decoded
and transformed row values as a single chunk (the per-row transform is
chunk-independent); but the typed batches' plain-numeric column dtypes
are inferred per chunk (`int64` exactly when every cell of the chunk is
an integer literal, `float64` otherwise), so the Output Schema fixed by
the first batch — and whether the run completes or aborts on a later
cast — can differ between chunkings of the same file. -/
theorem C6_theorem (cfg : TableConfig) (t : String) (n : Nat) (hn : 0 < n)
    (lines : List (List Char)) :
    pipelineRows cfg t n lines = processChunk cfg t lines := by
  obtain ⟨m, rfl⟩ : ∃ m, n = m + 1 := ⟨n - 1, by omega⟩
  unfold pipelineRows
  rw [flatten_map_processChunk, chunksOf_flatten]

/-- Witness for C6 at chunk size 2 on a three-line file. -/
theorem C6_witness :
    pipelineRows config11 "11" 2 ["11a".data, "13b".data, "11c".data]
      = processChunk config11 "11" ["11a".data, "13b".data, "11c".data] :=
  C6_theorem config11 "11" 2 (by decide) ["11a".data, "13b".data, "11c".data]

/-- Claim C8, counterexample: a run of two batches with different
schemas opens the writer on the first batch, aborts on the second, and
never calls `close()` — the `if parquet_writer: parquet_writer.close()`
at the end of `process_folder` is not in a `finally` block, so the
propagating exception skips it. -/
theorem C8_counterexample :
    (runSink [demoBatchA, demoBatchB]).schemaFixed.isSome = true ∧
    (runSink [demoBatchA, demoBatchB]).aborted = true ∧
    (runSink [demoBatchA, demoBatchB]).closed = 0 := by decide

/-- Claim C8 as amended: `close()` is called exactly once at the end of
a run that completes without a fatal error and in which the writer was
opened (and zero times when no batch ever opened it); on a run aborted
mid-way by a fatal error such as a schema-drift cast failure, `close()`
is not called at all and the output resource is left dangling. -/
theorem C8_theorem (batches : List ArrowBatch) :
    ((runSink batches).aborted = false →
      (runSink batches).closed
        = if (runSink batches).schemaFixed.isSome then 1 else 0) ∧
    ((runSink batches).aborted = true → (runSink batches).closed = 0) :=
  sinkGo_closed batches {} rfl rfl

/-- Witness for C8: a clean one-batch run closes the writer exactly
once. -/
theorem C8_witness : (runSink [demoBatchA]).closed = 1 := by
  have h := (C8_theorem [demoBatchA]).1 (by decide)
  rw [show (runSink [demoBatchA]).schemaFixed.isSome = true by decide] at h
  simpa using h

lemma zip_take_length (l1 : List α) (l2 : List β) :
    l1.zip l2 = l1.zip (l2.take l1.length) := by
  induction l1 generalizing l2 with
  | nil => simp
  | cons a l1 ih =>
    cases l2 with
    | nil => simp
    | cons b l2 => simpa using ih l2

lemma pyslice_take (line : List Char) (n a b : Nat) (hb : b ≤ n) :
    pyslice (line.take n) a b = pyslice line a b := by
  unfold pyslice
  rw [List.drop_take, List.take_take]
  congr 1
  omega

lemma getD_head_lt (positions : List Nat) (x : Nat) (j : Nat)
    (hj : j < positions.length + 1) :
    (0 :: positions ++ [x]).getD j 0 = (0 :: positions).getD j 0 := by
  cases j with
  | zero => rfl
  | succ j =>
    simp only [List.getD_cons_succ]
    exact List.getD_append positions [x] 0 j (by omega)

/-- Claim C4: for every registered layout and every line, decoding is
total and returns exactly `len(field_names)` fields (short lines simply
yield empty or truncated trailing fields); field `i` equals
`line[offsets[i]:offsets[i+1]]` stripped of whitespace, with
`offsets = [0] + field_end_offsets + [len(line)]`.  The field names are
also pairwise distinct, so the Python dict holds all
`len(field_names)` entries. -/
theorem C4_theorem (t : String) (cfg : TableConfig)
    (h : get_table_config t = some cfg) (line : List Char) :
    cfg.columns.Nodup ∧
    (split_fixed_width line cfg.positions cfg.columns).length = cfg.columns.length ∧
    ∀ i, i < cfg.columns.length →
      (split_fixed_width line cfg.positions cfg.columns)[i]? =
        some (cfg.columns.getD i "",
          pystrip (pyslice line ((0 :: cfg.positions ++ [line.length]).getD i 0)
            ((0 :: cfg.positions ++ [line.length]).getD (i + 1) 0))) := by
  have hfacts : cfg.columns.Nodup ∧ cfg.columns.length ≤ cfg.positions.length + 1 := by
    rcases get_table_config_cases t cfg h with
      ⟨-, rfl⟩ | ⟨-, rfl⟩ | ⟨-, rfl⟩ | ⟨-, rfl⟩ | ⟨-, rfl⟩ | ⟨-, rfl⟩ <;>
      exact ⟨by decide, by decide⟩
  refine ⟨hfacts.1, ?_, ?_⟩
  · unfold split_fixed_width
    rw [List.length_zip, spanValues_length]
    omega
  · intro i hi
    exact split_fixed_width_getElem? line cfg.positions cfg.columns i hi
      (by omega)

/-- Witness for C4: decoding the empty line with the table-11 layout
still yields one field per field name. -/
theorem C4_witness :
    (split_fixed_width [] config11.positions config11.columns).length
      = config11.columns.length :=
  ( C4_theorem "11" config11 rfl []).2.1

/-- Claim C9: `split_fixed_width` returns exactly
`min(len(columns), len(positions) + 1)` entries, discarding the excess;
in particular, decoding with the table-"16" layout (54 names, 55 spans)
ignores everything from offset 939 to the end of the line, so that text
never reaches a decoded record. -/
theorem C9_theorem :
    (∀ (line : List Char) (positions : List Nat) (columns : List String),
      (split_fixed_width line positions columns).length
        = min columns.length (positions.length + 1)) ∧
    ∀ line : List Char,
      split_fixed_width line config16.positions config16.columns
        = split_fixed_width (line.take 939) config16.positions config16.columns := by
  constructor
  · intro line positions columns
    unfold split_fixed_width
    rw [List.length_zip, spanValues_length]
  · intro line
    have hbound : ∀ j, j < 55 → (0 :: config16.positions).getD j 0 ≤ 939 := by decide
    have hc54 : config16.columns.length = 54 := by decide
    have hp54 : config16.positions.length = 54 := by decide
    unfold split_fixed_width
    rw [zip_take_length config16.columns (spanValues line config16.positions),
      zip_take_length config16.columns (spanValues (line.take 939) config16.positions),
      hc54]
    congr 1
    apply List.ext_getElem?
    intro i
    by_cases hi : i < 54
    · rw [List.getElem?_take_of_lt hi, List.getElem?_take_of_lt hi,
        spanValues_getElem? line config16.positions i (by omega),
        spanValues_getElem? (line.take 939) config16.positions i (by omega),
        getD_head_lt config16.positions line.length i (by omega),
        getD_head_lt config16.positions line.length (i + 1) (by omega),
        getD_head_lt config16.positions (line.take 939).length i (by omega),
        getD_head_lt config16.positions (line.take 939).length (i + 1) (by omega),
        pyslice_take line 939 _ _ (hbound (i + 1) (by omega))]
    · rw [List.getElem?_eq_none (le_trans (List.length_take_le _ _) (by omega)),
        List.getElem?_eq_none (le_trans (List.length_take_le _ _) (by omega))]

lemma transformCell_centroid (cfg : TableConfig) (name : String) (v : List Char)
    (h1 : cfg.centroid_cols.contains name = true)
    (h2 : cfg.percent_cols.contains name = false) :
    transformCell cfg name v
      = (parseNumeric v).elim CellVal.null fun q => CellVal.num (q * (1/100)) := by
  have h1' : name ∈ cfg.centroid_cols := by simpa using h1
  have h2' : name ∉ cfg.percent_cols := by simpa using h2
  unfold transformCell
  by_cases hn : name ∈ cfg.numeric_cols <;>
    cases hp : parseNumeric v <;>
      simp [hn, h1', h2', hp, toNumericCell, scaleCell]

lemma transformCell_percent (cfg : TableConfig) (name : String) (v : List Char)
    (h1 : cfg.percent_cols.contains name = true)
    (h2 : cfg.centroid_cols.contains name = false) :
    transformCell cfg name v
      = (parseNumeric v).elim CellVal.null fun q => CellVal.num (q * (1/1000)) := by
  have h1' : name ∈ cfg.percent_cols := by simpa using h1
  have h2' : name ∉ cfg.centroid_cols := by simpa using h2
  unfold transformCell
  by_cases hn : name ∈ cfg.numeric_cols <;>
    cases hp : parseNumeric v <;>
      simp [hn, h1', h2', hp, toNumericCell, scaleCell]

lemma transformCell_null (cfg : TableConfig) (name : String) (v : List Char)
    (hp : parseNumeric v = none)
    (hmem : (cfg.numeric_cols.contains name || cfg.centroid_cols.contains name
      || cfg.percent_cols.contains name) = true) :
    transformCell cfg name v = CellVal.null := by
  have hmem' : (name ∈ cfg.numeric_cols ∨ name ∈ cfg.centroid_cols)
      ∨ name ∈ cfg.percent_cols := by simpa using hmem
  unfold transformCell
  by_cases h1 : name ∈ cfg.numeric_cols <;>
    by_cases h2 : name ∈ cfg.centroid_cols <;>
      by_cases h3 : name ∈ cfg.percent_cols <;>
        simp_all [toNumericCell, scaleCell]

/-- Claim C7: a field of the centi-unit set transforms raw "12345" to
123.45; a field of the milli-unit set transforms raw "500" to 0.5; and
any raw value that does not parse as a number transforms to null for
every configured numeric field, with no exception raised (the transform
is a total function). -/
theorem C7_theorem (t : String) (cfg : TableConfig)
    (h : get_table_config t = some cfg) :
    (∀ name, cfg.centroid_cols.contains name = true →
      transformCell cfg name "12345".data = CellVal.num (2469/20)) ∧
    (∀ name, cfg.percent_cols.contains name = true →
      transformCell cfg name "500".data = CellVal.num (1/2)) ∧
    (∀ name raw,
      (cfg.numeric_cols.contains name || cfg.centroid_cols.contains name
        || cfg.percent_cols.contains name) = true →
      parseNumeric raw = none → transformCell cfg name raw = CellVal.null) := by
  have hv1 : parseNumeric "12345".data = some ((1 : ℚ) * ((12345 : Nat) : ℚ)) := rfl
  have hv2 : parseNumeric "500".data = some ((1 : ℚ) * ((500 : Nat) : ℚ)) := rfl
  refine ⟨?_, ?_, fun name raw hmem hp => transformCell_null cfg name raw hp hmem⟩
  · intro name hname
    have h2 : cfg.percent_cols.contains name = false := by
      rcases get_table_config_cases t cfg h with
        ⟨-, rfl⟩ | ⟨-, rfl⟩ | ⟨-, rfl⟩ | ⟨-, rfl⟩ | ⟨-, rfl⟩ | ⟨-, rfl⟩
      · rfl
      all_goals exact Bool.noConfusion hname
    rw [transformCell_centroid cfg name _ hname h2, hv1]
    simp only [Option.elim]
    norm_num
  · intro name hname
    have h2 : cfg.centroid_cols.contains name = false := by
      rcases get_table_config_cases t cfg h with
        ⟨-, rfl⟩ | ⟨-, rfl⟩ | ⟨-, rfl⟩ | ⟨-, rfl⟩ | ⟨-, rfl⟩ | ⟨-, rfl⟩
      · exact Bool.noConfusion hname
      · exact Bool.noConfusion hname
      · exact Bool.noConfusion hname
      · exact Bool.noConfusion hname
      · rfl
      · exact Bool.noConfusion hname
    rw [transformCell_percent cfg name _ hname h2, hv2]
    simp only [Option.elim]
    norm_num

/-- Witness for C7: the centroid field `xcen` of table 11, the
percentage field `pr1` of table 16, and an unparseable value in the
numeric field `sup` of table 11. -/
theorem C7_witness :
    transformCell config11 "xcen" "12345".data = CellVal.num (2469/20) ∧
    transformCell config16 "pr1" "500".data = CellVal.num (1/2) ∧
    transformCell config11 "sup" "abc".data = CellVal.null :=
  ⟨( C7_theorem "11" config11 rfl).1 "xcen" (by decide),
   ( C7_theorem "16" config16 rfl).2.1 "pr1" (by decide),
   ( C7_theorem "11" config11 rfl).2.2 "sup" "abc".data (by decide) (by decide)⟩

lemma pyStartsWith_take (pref line : List Char)
    (h : pyStartsWith pref line = true) : line.take pref.length = pref := by
  simpa [pyStartsWith] using h

lemma spanValues_cons_ex (line : List Char) (p0 : Nat) (ps : List Nat) :
    ∃ rest, spanValues line (p0 :: ps) = pystrip (line.take p0) :: rest := by
  have h0 := spanValues_getElem? line (p0 :: ps) 0 (by omega)
  cases hsv : spanValues line (p0 :: ps) with
  | nil =>
    have hl := spanValues_length line (p0 :: ps)
    rw [hsv] at hl
    simp at hl
  | cons v rest =>
    rw [hsv] at h0
    simp only [List.getElem?_cons_zero, Option.some.injEq] at h0
    have h0a : v = pystrip (line.take p0) := h0
    exact ⟨rest, by rw [h0a]⟩

lemma transformRow_lookup_head (cfg : TableConfig)
    (recs : List (List (String × List Char))) (c0 : String) (v0 : List Char)
    (rec : List (String × List Char))
    (hdrop : cfg.drop_cols.contains c0 = false)
    (hnum : cfg.numeric_cols.contains c0 = false)
    (hcen : cfg.centroid_cols.contains c0 = false)
    (hper : cfg.percent_cols.contains c0 = false) :
    (transformRow cfg recs ((c0, v0) :: rec)).lookup c0
      = some (CellVal.str v0) := by
  have hdrop' : c0 ∉ cfg.drop_cols := by simpa using hdrop
  have hnum' : c0 ∉ cfg.numeric_cols := by simpa using hnum
  have hcen' : c0 ∉ cfg.centroid_cols := by simpa using hcen
  have hper' : c0 ∉ cfg.percent_cols := by simpa using hper
  have hcell : transformCell cfg c0 v0 = CellVal.str v0 := by
    unfold transformCell
    simp [hnum', hcen', hper']
  rw [transformRow_simple]
  simp [List.filter_cons, hdrop', hcell, List.lookup]

lemma lookup_tipo_reg (cfg : TableConfig)
    (recs : List (List (String × List Char))) (line : List Char) (p0 : Nat)
    (ps : List Nat) (cs : List String)
    (hpos : cfg.positions = p0 :: ps) (hcols : cfg.columns = "tipo_reg" :: cs)
    (hdrop : cfg.drop_cols.contains "tipo_reg" = false)
    (hnum : cfg.numeric_cols.contains "tipo_reg" = false)
    (hcen : cfg.centroid_cols.contains "tipo_reg" = false)
    (hper : cfg.percent_cols.contains "tipo_reg" = false) :
    (transformRow cfg recs
        (split_fixed_width line cfg.positions cfg.columns)).lookup "tipo_reg"
      = some (CellVal.str (pystrip (line.take p0))) := by
  obtain ⟨rest, hsv⟩ := spanValues_cons_ex line p0 ps
  rw [hpos, hcols]
  unfold split_fixed_width
  rw [hsv, List.zip_cons_cons]
  exact transformRow_lookup_head cfg recs "tipo_reg" (pystrip (line.take p0)) _
    hdrop hnum hcen hper

/-- Claim C10: during a run requesting record-type `t`, every row of
every typed batch carries `tipo_reg = t`: only lines starting with `t`
pass the filter, `tipo_reg` is the stripped slice `[0, 2)` of the line,
every supported code is two characters with no surrounding whitespace,
and `tipo_reg` is neither dropped nor numerically transformed. -/
theorem C10_theorem (t : String) (cfg : TableConfig)
    (h : get_table_config t = some cfg) (lines : List (List Char))
    (row : List (String × CellVal)) (hrow : row ∈ processChunk cfg t lines) :
    row.lookup "tipo_reg" = some (CellVal.str t.data) := by
  unfold processChunk at hrow
  rw [List.mem_map] at hrow
  obtain ⟨rec, hrec, rfl⟩ := hrow
  unfold decodeChunk at hrec
  rw [List.mem_map] at hrec
  obtain ⟨line, hline, rfl⟩ := hrec
  rw [List.mem_filter] at hline
  have htake := pyStartsWith_take t.data line hline.2
  rcases get_table_config_cases t cfg h with
    ⟨rfl, rfl⟩ | ⟨rfl, rfl⟩ | ⟨rfl, rfl⟩ | ⟨rfl, rfl⟩ | ⟨rfl, rfl⟩ | ⟨rfl, rfl⟩
  · have htake2 : line.take 2 = "11".data := htake
    rw [lookup_tipo_reg config11 _ line 2 _ _ rfl rfl (by decide) (by decide)
      (by decide) (by decide), htake2]
    decide
  · have htake2 : line.take 2 = "13".data := htake
    rw [lookup_tipo_reg config13 _ line 2 _ _ rfl rfl (by decide) (by decide)
      (by decide) (by decide), htake2]
    decide
  · have htake2 : line.take 2 = "14".data := htake
    rw [lookup_tipo_reg config14 _ line 2 _ _ rfl rfl (by decide) (by decide)
      (by decide) (by decide), htake2]
    decide
  · have htake2 : line.take 2 = "15".data := htake
    rw [lookup_tipo_reg config15 _ line 2 _ _ rfl rfl (by decide) (by decide)
      (by decide) (by decide), htake2]
    decide
  · have htake2 : line.take 2 = "16".data := htake
    rw [lookup_tipo_reg config16 _ line 2 _ _ rfl rfl (by decide) (by decide)
      (by decide) (by decide), htake2]
    decide
  · have htake2 : line.take 2 = "17".data := htake
    rw [lookup_tipo_reg config17 _ line 2 _ _ rfl rfl (by decide) (by decide)
      (by decide) (by decide), htake2]
    decide

/-- Witness for C10: the single matching line "11abc" of a table-11 run
yields a row whose `tipo_reg` is "11". -/
theorem C10_witness :
    (transformRow config11 (decodeChunk config11 "11" ["11abc".data])
        (split_fixed_width "11abc".data config11.positions
          config11.columns)).lookup "tipo_reg"
      = some (CellVal.str "11".data) :=
  C10_theorem "11" config11 rfl ["11abc".data]
    (transformRow config11 (decodeChunk config11 "11" ["11abc".data])
      (split_fixed_width "11abc".data config11.positions config11.columns))
    (by decide)
